import Mathlib

/-!
Verification of the persistent reactive value store of this repository
(the `useLocalStorage` hook): a generic binding between an in-memory
reactive cell and a durable string-keyed backend, with a codec for the
stored type.

Shallow embedding conventions:
* the durable backend (`window.localStorage`) is a `Backend`: a partial
  map from keys to strings together with two flags saying whether its
  `getItem` / `setItem` operations throw when invoked;
* the codec (`JSON.stringify` / `JSON.parse`) is an abstract `Codec T`
  whose `encode` and `decode` return `Option`, `none` modelling a thrown
  exception (for instance `JSON.parse` throwing on malformed input);
* `console.error` calls are counted in a `diag` field;
* React state updates (`setStoredValue` calls) are counted in a
  `cellUpdates` field and the resulting in-memory value is the `state`
  field; `setItem` invocations are counted in `setAttempts`;
* the source `setValue` function has no return statement, so its
  caller-visible result is modelled as `callerReturn : Option StoreError`
  and is `none` on every path.
-/

/-- The durable string-keyed backend. `data` is the stored content
(`none` meaning the key is absent, as `getItem` returning `null`);
`getFails` / `setFails` say whether the respective operation throws. -/
structure Backend where
  data : String → Option String
  getFails : Bool
  setFails : Bool

/-- Successful `setItem key s`: the map is updated at `key`. -/
def Backend.setData (b : Backend) (key s : String) : Backend :=
  { b with data := fun k => if k = key then some s else b.data k }

/-- The serialization codec for the stored type `T`.  `encode` models
`JSON.stringify` (`none` when it throws or yields no string) and
`decode` models `JSON.parse` (`none` when it throws). -/
structure Codec (T : Type) where
  encode : T → Option String
  decode : String → Option T

/-- Outcome of running the `useState` initializer (hydration): the
in-memory value produced, the backend afterwards (the initializer only
reads, so it is returned to make the frame condition provable), and how
many diagnostics (`console.error`) were emitted. -/
structure HydrateResult (T : Type) where
  value : T
  store : Backend
  diag : Nat

/-- Hydration, transcribed from the `useState` initializer of the source:
`const item = window.localStorage.getItem(key); return item ?
JSON.parse(item) : initialValue`, the whole guarded by `try/catch` where
the catch logs and returns `initialValue`.  Note the truthiness test
`item ?` sends both `null` and the empty string to `initialValue`. -/
def hydrate {T : Type} (c : Codec T) (b : Backend) (key : String) (initialValue : T) :
    HydrateResult T :=
  if b.getFails then
    { value := initialValue, store := b, diag := 1 }
  else
    match b.data key with
    | none => { value := initialValue, store := b, diag := 0 }
    | some item =>
      if item = "" then { value := initialValue, store := b, diag := 0 }
      else
        match c.decode item with
        | some v => { value := v, store := b, diag := 0 }
        | none => { value := initialValue, store := b, diag := 1 }

/-- Error taxonomy of the specification surfaced to `write` callers.
The source never constructs such a value; the type exists so that the
caller-visible return of `setValue` can be stated and compared. -/
inductive StoreError where
  | PersistFailed
deriving DecidableEq

/-- Outcome of a `setValue` call: in-memory value afterwards, backend
afterwards, `console.error` count, the value returned to the caller
(the source has no return statement, so it is `none` on every path),
the number of `setStoredValue` calls made and the number of
`setItem` attempts made. -/
structure SetResult (T : Type) where
  state : T
  store : Backend
  diag : Nat
  callerReturn : Option StoreError
  cellUpdates : Nat
  setAttempts : Nat

/-- The argument of `setValue`: a literal value or an updater function.
The updater returns `Option`, `none` modelling an updater that throws.
For a non-function stored type `T` the source's `value instanceof
Function` test distinguishes exactly these two constructors. -/
inductive WriteArg (T : Type) where
  | val : T → WriteArg T
  | fn : (T → Option T) → WriteArg T

/-- Evaluation of `value instanceof Function ? value(storedValue) :
value`; `none` when the updater throws. -/
def evalArg {T : Type} : WriteArg T → T → Option T
  | .val v, _ => some v
  | .fn f, st => f st

/-- The tail of `setValue` after `valueToStore` has been computed:
`setStoredValue(valueToStore)` (one cell update, performed first), then
`window.localStorage.setItem(key, JSON.stringify(valueToStore))`; if
`JSON.stringify` throws no `setItem` attempt happens, and any throw is
caught by the surrounding catch which logs one diagnostic. -/
def commitValue {T : Type} (c : Codec T) (b : Backend) (key : String) (valueToStore : T) :
    SetResult T :=
  match c.encode valueToStore with
  | none =>
    { state := valueToStore, store := b, diag := 1, callerReturn := none,
      cellUpdates := 1, setAttempts := 0 }
  | some s =>
    if b.setFails then
      { state := valueToStore, store := b, diag := 1, callerReturn := none,
        cellUpdates := 1, setAttempts := 1 }
    else
      { state := valueToStore, store := b.setData key s, diag := 0, callerReturn := none,
        cellUpdates := 1, setAttempts := 1 }

/-- The `setValue` function of the source, for a non-function stored
type.  The updater (if any) is applied to the current in-memory value
`storedValue`; if it throws, the catch logs one diagnostic and nothing
else happens (in particular `setStoredValue` was never reached). -/
def setValue {T : Type} (c : Codec T) (b : Backend) (key : String) (storedValue : T)
    (value : WriteArg T) : SetResult T :=
  match evalArg value storedValue with
  | none =>
    { state := storedValue, store := b, diag := 1, callerReturn := none,
      cellUpdates := 0, setAttempts := 0 }
  | some valueToStore => commitValue c b key valueToStore

/-- The key-sync `useEffect` of the source, transcribed from
`const item = window.localStorage.getItem(key);
setStoredValue(item ? JSON.parse(item) : initialValue)` with a catch
that logs and calls `setStoredValue(initialValue)`.  The parameter `st`
is the in-memory value before the effect runs; the effect body never
reads it. -/
def keySync {T : Type} (c : Codec T) (b : Backend) (key : String) (initialValue : T)
    (st : T) : HydrateResult T :=
  if b.getFails then
    { value := initialValue, store := b, diag := 1 }
  else
    match b.data key with
    | none => { value := initialValue, store := b, diag := 0 }
    | some item =>
      if item = "" then { value := initialValue, store := b, diag := 0 }
      else
        match c.decode item with
        | some v => { value := v, store := b, diag := 0 }
        | none => { value := initialValue, store := b, diag := 1 }

/-! Untyped-value model for the `instanceof Function` dispatch when the
stored type `T` is itself a function type.  A runtime value is either a
number or a function, functions being drawn from a small syntactic
function space so that applying a function to a function stays
well-founded. -/

/-- A tiny syntactic space of Javascript function values. -/
inductive FunCode where
  | constN : Nat → FunCode
  | ident : FunCode
deriving DecidableEq

/-- A runtime Javascript value: a number or a function. -/
inductive JVal where
  | num : Nat → JVal
  | fn : FunCode → JVal
deriving DecidableEq

/-- Application of a function value to a runtime value. -/
def applyFun : FunCode → JVal → JVal
  | .constN n, _ => .num n
  | .ident, v => v

/-- The `value instanceof Function` test on a runtime value. -/
def isFunction : JVal → Bool
  | .fn _ => true
  | .num _ => false

/-- The first line of `setValue` at runtime: `value instanceof Function
? value(storedValue) : value`, on untyped values. -/
def jsDispatch (storedValue value : JVal) : JVal :=
  match value with
  | .fn f => applyFun f storedValue
  | v => v

/-- The `setValue` function as it executes when the stored type is a
function type: the dispatch is by the runtime `instanceof` test, so a
literal function argument lands in the updater branch. -/
def setValueDyn (c : Codec JVal) (b : Backend) (key : String) (storedValue value : JVal) :
    SetResult JVal :=
  commitValue c b key (jsDispatch storedValue value)

/-! Concrete instances used by counterexamples and witnesses. -/

/-- A concrete codec for `Nat`: `n` is stored as the string of `n + 1`
copies of the letter a, so every encoding is a non-empty string, the
round trip is exact, and the empty string fails to decode. -/
def cNat : Codec Nat :=
  { encode := fun n => some (String.mk (List.replicate (n + 1) 'a'))
    decode := fun s => if s.length = 0 then none else some (s.length - 1) }

/-- A concrete codec for untyped values: numbers are stored in unary,
functions make `JSON.stringify` yield no string. -/
def cJ : Codec JVal :=
  { encode := fun v =>
      match v with
      | .num n => some (String.mk (List.replicate (n + 1) 'a'))
      | .fn _ => none
    decode := fun s => if s.length = 0 then none else some (.num (s.length - 1)) }

/-- An empty, fully working backend. -/
def bOk : Backend :=
  { data := fun _ => none, getFails := false, setFails := false }

/-- A backend whose `setItem` throws. -/
def bSetFail : Backend :=
  { data := fun _ => none, getFails := false, setFails := true }

/-- A backend holding the empty string under the key k. -/
def bEmptyStr : Backend :=
  { data := fun k => if k = "k" then some "" else none,
    getFails := false, setFails := false }

/-! Helper lemmas characterizing the fields of `commitValue` by case
analysis on the encode result and the backend set flag. -/

theorem commitValue_state {T : Type} (c : Codec T) (b : Backend) (key : String) (v : T) :
    (commitValue c b key v).state = v := by
  unfold commitValue
  cases c.encode v with
  | none => rfl
  | some s => cases hb : b.setFails <;> simp [hb]

theorem commitValue_cellUpdates {T : Type} (c : Codec T) (b : Backend) (key : String)
    (v : T) : (commitValue c b key v).cellUpdates = 1 := by
  unfold commitValue
  cases c.encode v with
  | none => rfl
  | some s => cases hb : b.setFails <;> simp [hb]

theorem commitValue_callerReturn {T : Type} (c : Codec T) (b : Backend) (key : String)
    (v : T) : (commitValue c b key v).callerReturn = none := by
  unfold commitValue
  cases c.encode v with
  | none => rfl
  | some s => cases hb : b.setFails <;> simp [hb]

theorem commitValue_setAttempts {T : Type} (c : Codec T) (b : Backend) (key : String)
    (v : T) :
    (commitValue c b key v).setAttempts =
      (match c.encode v with
       | none => 0
       | some _ => 1) := by
  unfold commitValue
  cases c.encode v with
  | none => rfl
  | some s => cases hb : b.setFails <;> simp [hb]

theorem commitValue_diag {T : Type} (c : Codec T) (b : Backend) (key : String) (v : T) :
    (commitValue c b key v).diag =
      (match c.encode v with
       | none => 1
       | some _ => if b.setFails then 1 else 0) := by
  unfold commitValue
  cases c.encode v with
  | none => rfl
  | some s =>
    by_cases h : b.setFails = true
    · simp [h]
    · simp [h]

/-! Theorems settling the claims. -/

/-- C1: after a successful write of a serializable value `V` (its
encoding is a string `s`, non-empty as every `JSON.stringify` output is,
decoding back to `V`, and the backend `set` succeeds), the in-memory
value equals `V`, and hydrating a fresh binding to the same key reads
the durable slot and decodes it back to `V`. -/
theorem C1_roundtrip {T : Type} (c : Codec T) (b : Backend) (key : String)
    (st0 V fb : T) (s : String)
    (henc : c.encode V = some s) (hne : s ≠ "") (hdec : c.decode s = some V)
    (hset : b.setFails = false) (hget : b.getFails = false) :
    (setValue c b key st0 (.val V)).state = V ∧
    (hydrate c (setValue c b key st0 (.val V)).store key fb).value = V := by
  have hsv : setValue c b key st0 (.val V) =
      { state := V, store := b.setData key s, diag := 0, callerReturn := none,
        cellUpdates := 1, setAttempts := 1 } := by
    simp [setValue, evalArg, commitValue, henc, hset]
  refine ⟨by rw [hsv], ?_⟩
  rw [hsv]
  simp [hydrate, Backend.setData, hget, hne, hdec]

/-- C1 witness: a concrete run of the round trip. -/
theorem C1_roundtrip_witness :
    (setValue cNat bOk "k" 0 (.val 2)).state = 2 ∧
    (hydrate cNat (setValue cNat bOk "k" 0 (.val 2)).store "k" 7).value = 2 :=
  C1_roundtrip cNat bOk "k" 0 2 7 "aaa" (by decide) (by decide) (by decide) rfl rfl

/-- C2 counterexample: with a backend whose `set` throws, `write 5`
does not return a `PersistFailed` result to the caller — the source
function has no return statement, so the caller receives nothing. -/
theorem C2_counterexample :
    ¬ (setValue cNat bSetFail "k" 0 (.val 5)).callerReturn = some StoreError.PersistFailed := by
  decide

/-- C2 amended: if the backend `set` fails during `write v`, the
in-memory value afterwards still equals `v` (no rollback) and one
diagnostic is emitted, but the call returns no failure result to the
caller (the return value is always the undefined value) and the durable
store is unchanged. -/
theorem C2_persist_failure {T : Type} (c : Codec T) (b : Backend) (key : String)
    (st v : T) (s : String)
    (henc : c.encode v = some s) (hset : b.setFails = true) :
    (setValue c b key st (.val v)).state = v ∧
    (setValue c b key st (.val v)).diag = 1 ∧
    (setValue c b key st (.val v)).callerReturn = none ∧
    (setValue c b key st (.val v)).store = b := by
  simp [setValue, evalArg, commitValue, henc, hset]

/-- C2 witness: a concrete failing write. -/
theorem C2_persist_failure_witness :
    (setValue cNat bSetFail "k" 0 (.val 5)).state = 5 ∧
    (setValue cNat bSetFail "k" 0 (.val 5)).diag = 1 ∧
    (setValue cNat bSetFail "k" 0 (.val 5)).callerReturn = none ∧
    (setValue cNat bSetFail "k" 0 (.val 5)).store = bSetFail :=
  C2_persist_failure cNat bSetFail "k" 0 5 "aaaaaa" (by decide) rfl

/-- C3: issuing two writes in sequence, where the first evaluates to
`v1` and the second is an updater `f2` applied to the current in-memory
value, leaves the in-memory value at `f2 v1`, whatever the backend and
codec did on the way. -/
theorem C3_updater_composition {T : Type} (c : Codec T) (b : Backend) (key : String)
    (init : T) (w1 : WriteArg T) (f2 : T → T) (v1 : T)
    (h1 : evalArg w1 init = some v1) :
    (setValue c (setValue c b key init w1).store key (setValue c b key init w1).state
      (.fn (fun t => some (f2 t)))).state = f2 v1 := by
  have hst : (setValue c b key init w1).state = v1 := by
    unfold setValue
    rw [h1]
    exact commitValue_state c b key v1
  rw [hst]
  exact commitValue_state c (setValue c b key init w1).store key (f2 v1)

/-- C3 witness: writing the literal 3 and then the updater adding 10
leaves 13 in memory. -/
theorem C3_updater_composition_witness :
    (setValue cNat (setValue cNat bOk "k" 0 (.val 3)).store "k"
      (setValue cNat bOk "k" 0 (.val 3)).state
      (.fn (fun t => some (t + 10)))).state = 13 :=
  C3_updater_composition cNat bOk "k" 0 (.val 3) (fun t => t + 10) 3 rfl

/-- C4 counterexample: the empty string is a slot content that fails to
decode, yet hydration over it emits no diagnostic (the truthiness test
short-circuits before the decode), refuting the claim that every
undecodable slot produces a diagnostic. -/
theorem C4_counterexample :
    cNat.decode "" = none ∧
    (hydrate cNat bEmptyStr "k" 5).value = 5 ∧
    (hydrate cNat bEmptyStr "k" 5).diag = 0 := by
  refine ⟨by decide, by decide, by decide⟩

/-- C4 amended: for a slot holding a non-empty string that fails to
decode, and likewise when the backend `get` itself fails, hydration
yields the fallback, emits one diagnostic, returns normally, and writes
nothing to the durable slot; a slot holding the empty string also falls
back but without a diagnostic. -/
theorem C4_hydration_failure {T : Type} (c : Codec T) (b : Backend) (key : String)
    (fb : T) :
    (b.getFails = true →
      (hydrate c b key fb).value = fb ∧ (hydrate c b key fb).diag = 1 ∧
      (hydrate c b key fb).store = b) ∧
    (∀ s : String, b.getFails = false → b.data key = some s → s ≠ "" →
      c.decode s = none →
      (hydrate c b key fb).value = fb ∧ (hydrate c b key fb).diag = 1 ∧
      (hydrate c b key fb).store = b) := by
  constructor
  · intro hget
    simp [hydrate, hget]
  · intro s hget hdata hs hdec
    simp [hydrate, hget, hdata, hs, hdec]

/-- C4 witness: hydration over a corrupted non-empty slot at a concrete
input falls back with one diagnostic and leaves the store alone. -/
theorem C4_hydration_failure_witness :
    (hydrate (Codec.mk (fun n => some (String.mk (List.replicate (n + 1) 'a')))
        (fun _ => none))
      (Backend.mk (fun k => if k = "k" then some "xx" else none) false false)
      "k" 5).value = 5 ∧
    (hydrate (Codec.mk (fun n => some (String.mk (List.replicate (n + 1) 'a')))
        (fun _ => none))
      (Backend.mk (fun k => if k = "k" then some "xx" else none) false false)
      "k" 5).diag = 1 := by
  have h := (C4_hydration_failure
    (Codec.mk (fun n => some (String.mk (List.replicate (n + 1) 'a'))) (fun _ => none))
    (Backend.mk (fun k => if k = "k" then some "xx" else none) false false)
    "k" 5).2 "xx" rfl (by decide) (by decide) rfl
  exact ⟨h.1, h.2.1⟩

/-- C5: hydrating a key with no durable entry yields exactly the
fallback, emits no diagnostic, and performs no durable write (the
backend is unchanged, so the slot is still empty afterwards). -/
theorem C5_fallback_on_empty {T : Type} (c : Codec T) (b : Backend) (key : String)
    (fb : T) (hget : b.getFails = false) (hdata : b.data key = none) :
    (hydrate c b key fb).value = fb ∧ (hydrate c b key fb).diag = 0 ∧
    (hydrate c b key fb).store = b ∧ (hydrate c b key fb).store.data key = none := by
  simp [hydrate, hget, hdata]

/-- C5 witness: hydrating the empty backend. -/
theorem C5_fallback_on_empty_witness :
    (hydrate cNat bOk "k" 7).value = 7 ∧ (hydrate cNat bOk "k" 7).diag = 0 ∧
    (hydrate cNat bOk "k" 7).store = bOk ∧ (hydrate cNat bOk "k" 7).store.data "k" = none :=
  C5_fallback_on_empty cNat bOk "k" 7 rfl rfl

/-- C6 counterexample: a write whose updater throws performs zero
reactive-cell updates, refuting the claim that every write call
triggers exactly one. -/
theorem C6_counterexample :
    ¬ (setValue cNat bOk "k" 0 (.fn (fun _ => none))).cellUpdates = 1 := by
  decide

/-- C6 amended: every write call triggers at most one reactive-cell
update and at most one durable mutation attempt; exactly one cell
update happens when the argument evaluates (a literal, or an updater
that returns), but a throwing updater causes zero cell updates, and the
mutation attempt happens exactly when both the argument and the encode
step succeed. -/
theorem C6_side_effect_count {T : Type} (c : Codec T) (b : Backend) (key : String)
    (st : T) (arg : WriteArg T) :
    (setValue c b key st arg).cellUpdates =
      (match evalArg arg st with
       | none => 0
       | some _ => 1) ∧
    (setValue c b key st arg).setAttempts =
      (match evalArg arg st with
       | none => 0
       | some v =>
         match c.encode v with
         | none => 0
         | some _ => 1) := by
  unfold setValue
  cases harg : evalArg arg st with
  | none => exact ⟨rfl, rfl⟩
  | some v => exact ⟨commitValue_cellUpdates c b key v, commitValue_setAttempts c b key v⟩

/-- C7: the key-sync effect performs hydration for the new key
independently of the previous in-memory value: its outcome is exactly
that of a fresh hydration, whatever value the cell held before. -/
theorem C7_key_change_independence {T : Type} (c : Codec T) (b : Backend) (key : String)
    (fb : T) (st : T) :
    keySync c b key fb st = hydrate c b key fb := by
  rfl

/-- C8: a durable slot holding the empty string is treated as absent:
hydration yields the fallback, emits no diagnostic, and leaves the
backend unchanged — for every codec, so the stored string is never
decoded. -/
theorem C8_empty_string_as_absent {T : Type} (c : Codec T) (b : Backend) (key : String)
    (fb : T) (hget : b.getFails = false) (hdata : b.data key = some "") :
    (hydrate c b key fb).value = fb ∧ (hydrate c b key fb).diag = 0 ∧
    (hydrate c b key fb).store = b := by
  simp [hydrate, hget, hdata]

/-- C8 witness: a concrete backend holding the empty string. -/
theorem C8_empty_string_as_absent_witness :
    (hydrate cNat bEmptyStr "k" 9).value = 9 ∧ (hydrate cNat bEmptyStr "k" 9).diag = 0 ∧
    (hydrate cNat bEmptyStr "k" 9).store = bEmptyStr :=
  C8_empty_string_as_absent cNat bEmptyStr "k" 9 rfl (by decide)

/-- C9: every `setValue` call returns normally with no value handed to
the caller, and every failure inside it — a throwing updater, a failing
encode, or a failing backend `set` — is converted into exactly one
logged diagnostic, a successful run emitting none. -/
theorem C9_write_never_raises {T : Type} (c : Codec T) (b : Backend) (key : String)
    (st : T) (arg : WriteArg T) :
    (setValue c b key st arg).callerReturn = none ∧
    (setValue c b key st arg).diag =
      (match evalArg arg st with
       | none => 1
       | some v =>
         match c.encode v with
         | none => 1
         | some _ => if b.setFails then 1 else 0) := by
  unfold setValue
  cases harg : evalArg arg st with
  | none => exact ⟨rfl, rfl⟩
  | some v => exact ⟨commitValue_callerReturn c b key v, commitValue_diag c b key v⟩

/-- C10 counterexample: with the identity function both as the current
in-memory value and as the literal argument, the write stores exactly
the literal function value, refuting the claim that a literal function
value is never stored. -/
theorem C10_counterexample :
    (setValueDyn cJ bOk "k" (JVal.fn FunCode.ident) (JVal.fn FunCode.ident)).state =
      JVal.fn FunCode.ident := by
  decide

/-- C10 amended: when the stored type is a function type, the runtime
`instanceof Function` test classifies every literal function value `f`
as an updater, so the write stores `f` applied to the current in-memory
value — never through the literal branch, and the literal itself ends
up stored only in the coincidence that the application returns it —
whereas a non-function literal is stored as given. -/
theorem C10_function_misdispatch (c : Codec JVal) (b : Backend) (key : String)
    (st : JVal) (f : FunCode) (n : Nat) :
    isFunction (.fn f) = true ∧
    (setValueDyn c b key st (.fn f)).state = applyFun f st ∧
    (setValueDyn c b key st (.num n)).state = .num n :=
  ⟨rfl, commitValue_state c b key (applyFun f st), commitValue_state c b key (.num n)⟩
